import Mathlib

/-!
Shallow embedding of the presentation timing engine and capture engine of
the 2035VC repository.

Timer engine: `usePresentationTimer` (src/src/hooks/useFullscreen.ts).
JavaScript millisecond timestamps (`performance.now()`) are modelled as
rationals; the integer-valued slide index is modelled as `ℤ`.
-/

/-- `SLIDE_DURATION_MS` from the source. -/
def SLIDE_DURATION_MS : ℚ := 15000

/-- `TOTAL_SLIDES` from the source. -/
def TOTAL_SLIDES : ℤ := 20

/-- `TOTAL_DURATION_MS = SLIDE_DURATION_MS * TOTAL_SLIDES` from the source. -/
def TOTAL_DURATION_MS : ℚ := 300000

/-- The `TimerState` record published to React state (src/src/types/index.ts). -/
structure TimerState where
  currentSlide : ℤ
  slideElapsed : ℚ
  totalElapsed : ℚ
  isPaused : Bool
  isFinished : Bool
deriving DecidableEq

/-- The mutable refs held by `usePresentationTimer`:
`startTimeRef`, `pausedAtRef`, `totalPausedMsRef`, `manualOffsetRef`,
`hasFinishedRef`. -/
structure TimerRefs where
  startTime : ℚ
  pausedAt : Option ℚ
  totalPausedMs : ℚ
  manualOffset : ℚ
  hasFinished : Bool
deriving DecidableEq

/-- `getEffectiveElapsed`: `(pausedAtRef.current ?? performance.now())
- startTimeRef.current - totalPausedMsRef.current + manualOffsetRef.current`,
with the call instant `performance.now()` passed in as `now`. -/
def getEffectiveElapsed (r : TimerRefs) (now : ℚ) : ℚ :=
  (r.pausedAt.getD now) - r.startTime - r.totalPausedMs + r.manualOffset

/-- The state computation performed inside `tick`: clamp the effective
elapsed time to `[0, TOTAL_DURATION_MS]`, derive the slide index by floor
division, derive the within-slide elapsed time, and compare against the
total duration for the finished flag. -/
def computeState (elapsed : ℚ) (isPaused : Bool) : TimerState :=
  let clampedElapsed := max 0 (min elapsed TOTAL_DURATION_MS)
  let currentSlide := min ⌊clampedElapsed / SLIDE_DURATION_MS⌋ (TOTAL_SLIDES - 1)
  let slideElapsed := clampedElapsed - currentSlide * SLIDE_DURATION_MS
  let isFinished := decide (TOTAL_DURATION_MS ≤ clampedElapsed)
  { currentSlide := currentSlide
    slideElapsed := slideElapsed
    totalElapsed := clampedElapsed
    isPaused := isPaused
    isFinished := isFinished }

/-- The whole timer: refs, the currently published `TimerState`, and a
count of how many times the `onFinish` callback has been invoked. -/
structure TimerMachine where
  refs : TimerRefs
  published : TimerState
  finishCount : ℕ
deriving DecidableEq

/-- `tick`: recompute the derived state from the effective elapsed time,
publish it via `setTimerState`, and — when finished and the fired-finish
flag `hasFinishedRef` is still clear — set the flag and invoke the
`onFinish` callback (counted in `finishCount`). -/
def tickStep (m : TimerMachine) (now : ℚ) : TimerMachine :=
  let elapsed := getEffectiveElapsed m.refs now
  let st := computeState elapsed m.refs.pausedAt.isSome
  if st.isFinished && !m.refs.hasFinished then
    { refs := { m.refs with hasFinished := true }
      published := st
      finishCount := m.finishCount + 1 }
  else
    { m with published := st }

/-- `pause`: no-op when already paused; otherwise record the pause instant
and republish the previous state with `isPaused := true`. -/
def pauseStep (m : TimerMachine) (now : ℚ) : TimerMachine :=
  match m.refs.pausedAt with
  | some _ => m
  | none =>
    { m with
      refs := { m.refs with pausedAt := some now }
      published := { m.published with isPaused := true } }

/-- `resume`: no-op when not paused; otherwise add the pause span to the
cumulative paused duration, clear the pause instant, and republish the
previous state with `isPaused := false`. -/
def resumeStep (m : TimerMachine) (now : ℚ) : TimerMachine :=
  match m.refs.pausedAt with
  | none => m
  | some p =>
    { m with
      refs := { m.refs with
        totalPausedMs := m.refs.totalPausedMs + (now - p)
        pausedAt := none }
      published := { m.published with isPaused := false } }

/-- The ref updates of `goToSlide(targetIndex)`: clamp the index to
`[0, TOTAL_SLIDES - 1]`, shift `manualOffsetRef` by
`targetElapsed - currentEffective`, and clear the fired-finish flag. -/
def goToSlideCore (m : TimerMachine) (now : ℚ) (targetIndex : ℤ) : TimerMachine :=
  let clamped := max 0 (min targetIndex (TOTAL_SLIDES - 1))
  let targetElapsed := (clamped : ℚ) * SLIDE_DURATION_MS
  let currentEffective := getEffectiveElapsed m.refs now
  { m with
    refs := { m.refs with
      manualOffset := m.refs.manualOffset + (targetElapsed - currentEffective)
      hasFinished := false } }

/-- `goToSlide(targetIndex)`: perform the ref updates and — when paused —
run one immediate `tick` ("If paused, update immediately"). -/
def goToSlideStep (m : TimerMachine) (now : ℚ) (targetIndex : ℤ) : TimerMachine :=
  let m' := goToSlideCore m now targetIndex
  if m'.refs.pausedAt.isSome then tickStep m' now else m'

/-- One observable event in the life of a timer session, each carrying the
`performance.now()` timestamp at which it occurs. -/
inductive TimerEvent where
  | tick (now : ℚ)
  | pause (now : ℚ)
  | resume (now : ℚ)
  | goToSlide (now : ℚ) (i : ℤ)
deriving DecidableEq

/-- Dispatch one event to the corresponding step function. -/
def stepEvent (m : TimerMachine) : TimerEvent → TimerMachine
  | TimerEvent.tick now => tickStep m now
  | TimerEvent.pause now => pauseStep m now
  | TimerEvent.resume now => resumeStep m now
  | TimerEvent.goToSlide now i => goToSlideStep m now i

/-- Run a sequence of events left to right. -/
def runEvents (m : TimerMachine) (es : List TimerEvent) : TimerMachine :=
  es.foldl stepEvent m

/-- The initial published state set by `useState` in the source. -/
def initTimerState : TimerState :=
  { currentSlide := 0, slideElapsed := 0, totalElapsed := 0
    isPaused := false, isFinished := false }

/-- The machine right after the mount effect with `autoStart = true`:
`startTimeRef := performance.now()`, all accumulators cleared, running. -/
def initMachine (startTime : ℚ) : TimerMachine :=
  { refs := { startTime := startTime, pausedAt := none, totalPausedMs := 0
              manualOffset := 0, hasFinished := false }
    published := initTimerState
    finishCount := 0 }

/-- The published state of a `tick` is the computed state, whichever
branch of the finish guard is taken. -/
theorem tickStep_published (m : TimerMachine) (now : ℚ) :
    (tickStep m now).published =
      computeState (getEffectiveElapsed m.refs now) m.refs.pausedAt.isSome := by
  simp only [tickStep]
  split <;> rfl

/-- C1: for every tick whose effective elapsed time lies in `[0, 300000)`,
the published state has `currentSlide = min ⌊elapsed / 15000⌋ 19` and
`slideElapsed = elapsed - currentSlide * 15000`. -/
theorem timer_tick_slide_derivation (m : TimerMachine) (now : ℚ)
    (h0 : 0 ≤ getEffectiveElapsed m.refs now)
    (h1 : getEffectiveElapsed m.refs now < 300000) :
    (tickStep m now).published.currentSlide =
      min ⌊getEffectiveElapsed m.refs now / 15000⌋ 19 ∧
    (tickStep m now).published.slideElapsed =
      getEffectiveElapsed m.refs now -
        (min ⌊getEffectiveElapsed m.refs now / 15000⌋ 19) * 15000 := by
  rw [tickStep_published]
  have h2 : getEffectiveElapsed m.refs now ≤ TOTAL_DURATION_MS := le_of_lt h1
  have hclamp : max 0 (min (getEffectiveElapsed m.refs now) TOTAL_DURATION_MS) =
      getEffectiveElapsed m.refs now := by
    rw [min_eq_left h2, max_eq_right h0]
  simp only [computeState, hclamp]
  constructor
  · norm_num [SLIDE_DURATION_MS, TOTAL_SLIDES]
  · norm_num [SLIDE_DURATION_MS, TOTAL_SLIDES]

/-- Witness for C1 at a concrete machine and instant: elapsed 40000 ms. -/
theorem timer_tick_slide_derivation_w :
    (tickStep (initMachine 0) 40000).published.currentSlide =
      min ⌊getEffectiveElapsed (initMachine 0).refs 40000 / 15000⌋ 19 ∧
    (tickStep (initMachine 0) 40000).published.slideElapsed =
      getEffectiveElapsed (initMachine 0).refs 40000 -
        (min ⌊getEffectiveElapsed (initMachine 0).refs 40000 / 15000⌋ 19) * 15000 :=
  timer_tick_slide_derivation (initMachine 0) 40000
    (by norm_num [getEffectiveElapsed, initMachine])
    (by norm_num [getEffectiveElapsed, initMachine])

/-- C10: `pause` and `resume` republish the previous state changing only
`isPaused`; `currentSlide`, `slideElapsed`, `totalElapsed`, `isFinished`
are exactly those of the state published before the call. -/
theorem pause_resume_only_isPaused (m : TimerMachine) (t u : ℚ) :
    ((pauseStep m t).published.currentSlide = m.published.currentSlide ∧
     (pauseStep m t).published.slideElapsed = m.published.slideElapsed ∧
     (pauseStep m t).published.totalElapsed = m.published.totalElapsed ∧
     (pauseStep m t).published.isFinished = m.published.isFinished) ∧
    ((resumeStep m u).published.currentSlide = m.published.currentSlide ∧
     (resumeStep m u).published.slideElapsed = m.published.slideElapsed ∧
     (resumeStep m u).published.totalElapsed = m.published.totalElapsed ∧
     (resumeStep m u).published.isFinished = m.published.isFinished) := by
  cases hm : m.refs.pausedAt <;> simp [pauseStep, resumeStep, hm]

/-- C3: pausing at instant `t` freezes the effective elapsed time at its
value at `t` (for any query instant `u` while paused), and resuming `d` ms
later leaves the effective elapsed time at that same value. -/
theorem pause_resume_preserves_elapsed (m : TimerMachine) (t d u : ℚ)
    (h : m.refs.pausedAt = none) :
    getEffectiveElapsed (pauseStep m t).refs u = getEffectiveElapsed m.refs t ∧
    getEffectiveElapsed (resumeStep (pauseStep m t) (t + d)).refs (t + d) =
      getEffectiveElapsed m.refs t := by
  constructor
  · simp [pauseStep, h, getEffectiveElapsed]
  · simp only [pauseStep, resumeStep, h, getEffectiveElapsed, Option.getD_some,
      Option.getD_none]
    ring

/-- Witness for C3 at `t = 100`, `d = 50`, `u = 130` on a fresh machine. -/
theorem pause_resume_preserves_elapsed_w :
    getEffectiveElapsed (pauseStep (initMachine 0) 100).refs 130 =
      getEffectiveElapsed (initMachine 0).refs 100 ∧
    getEffectiveElapsed (resumeStep (pauseStep (initMachine 0) 100) (100 + 50)).refs
        (100 + 50) =
      getEffectiveElapsed (initMachine 0).refs 100 :=
  pause_resume_preserves_elapsed (initMachine 0) 100 50 130 rfl

/-- At most one `onFinish` invocation is possible while `hasFinishedRef`
guards the finish edge. -/
def FinishInv (m : TimerMachine) : Prop :=
  m.finishCount ≤ if m.refs.hasFinished then 1 else 0

theorem finishInv_tick (m : TimerMachine) (now : ℚ) (h : FinishInv m) :
    FinishInv (tickStep m now) := by
  unfold FinishInv at h ⊢
  simp only [tickStep]
  split
  · rename_i hc
    rw [Bool.and_eq_true, Bool.not_eq_true'] at hc
    rw [hc.2] at h
    simp at h ⊢
    omega
  · exact h

theorem pauseStep_finishCount (m : TimerMachine) (t : ℚ) :
    (pauseStep m t).finishCount = m.finishCount := by
  unfold pauseStep
  cases m.refs.pausedAt <;> rfl

theorem pauseStep_hasFinished (m : TimerMachine) (t : ℚ) :
    (pauseStep m t).refs.hasFinished = m.refs.hasFinished := by
  unfold pauseStep
  cases m.refs.pausedAt <;> rfl

theorem resumeStep_finishCount (m : TimerMachine) (t : ℚ) :
    (resumeStep m t).finishCount = m.finishCount := by
  unfold resumeStep
  cases m.refs.pausedAt <;> rfl

theorem resumeStep_hasFinished (m : TimerMachine) (t : ℚ) :
    (resumeStep m t).refs.hasFinished = m.refs.hasFinished := by
  unfold resumeStep
  cases m.refs.pausedAt <;> rfl

theorem finishInv_pause (m : TimerMachine) (t : ℚ) (h : FinishInv m) :
    FinishInv (pauseStep m t) := by
  unfold FinishInv at h ⊢
  rw [pauseStep_finishCount, pauseStep_hasFinished]
  exact h

theorem finishInv_resume (m : TimerMachine) (t : ℚ) (h : FinishInv m) :
    FinishInv (resumeStep m t) := by
  unfold FinishInv at h ⊢
  rw [resumeStep_finishCount, resumeStep_hasFinished]
  exact h

theorem finishInv_step (m : TimerMachine) (e : TimerEvent)
    (he : ∀ t i, e ≠ TimerEvent.goToSlide t i) (h : FinishInv m) :
    FinishInv (stepEvent m e) := by
  cases e with
  | tick now => exact finishInv_tick m now h
  | pause now => exact finishInv_pause m now h
  | resume now => exact finishInv_resume m now h
  | goToSlide now i => exact absurd rfl (he now i)

theorem finishInv_run (es : List TimerEvent) (m : TimerMachine)
    (he : ∀ e ∈ es, ∀ t i, e ≠ TimerEvent.goToSlide t i) (h : FinishInv m) :
    FinishInv (runEvents m es) := by
  induction es generalizing m with
  | nil => exact h
  | cons e rest ih =>
    exact ih (stepEvent m e)
      (fun e' h' t i => he e' (List.mem_cons_of_mem e h') t i)
      (finishInv_step m e (he e (List.mem_cons_self e rest)) h)

/-- C2 (amended): `isFinished` is published true exactly when the clamped
effective elapsed time is `≥ 300000` ms, and across any sequence of ticks
interleaved with pause and resume calls — but with no `goToSlide`, which
clears the fired-finish flag — the `onFinish` callback is invoked at most
once per session. -/
theorem timer_finish_once_no_seek (events : List TimerEvent)
    (hseek : ∀ e ∈ events, ∀ t i, e ≠ TimerEvent.goToSlide t i) (s : ℚ)
    (m : TimerMachine) (now : ℚ) :
    (runEvents (initMachine s) events).finishCount ≤ 1 ∧
    ((tickStep m now).published.isFinished = true ↔
      300000 ≤ max 0 (min (getEffectiveElapsed m.refs now) 300000)) := by
  constructor
  · have h0 : FinishInv (initMachine s) := by
      unfold FinishInv initMachine
      simp
    have h1 := finishInv_run events (initMachine s) hseek h0
    unfold FinishInv at h1
    split at h1 <;> omega
  · rw [tickStep_published]
    simp [computeState, TOTAL_DURATION_MS]

/-- Witness for C2 (amended) on the single-tick sequence reaching the
total duration. -/
theorem timer_finish_once_no_seek_w :
    (runEvents (initMachine 0) [TimerEvent.tick 300000]).finishCount ≤ 1 ∧
    ((tickStep (initMachine 0) 300000).published.isFinished = true ↔
      300000 ≤ max 0 (min (getEffectiveElapsed (initMachine 0).refs 300000) 300000)) :=
  timer_finish_once_no_seek [TimerEvent.tick 300000]
    (by
      intro e he t i
      rw [List.mem_singleton] at he
      subst he
      intro hc
      cases hc) 0 (initMachine 0) 300000

/-- C2 counterexample: after a finish has fired, a seek (`goToSlide`)
clears `hasFinishedRef`, and once the timer reaches the total duration
again the `onFinish` callback fires a second time: this concrete
tick/pause/seek/resume/tick sequence invokes it twice in one session. -/
theorem finish_fires_twice_after_seek :
    (runEvents (initMachine 0)
      [TimerEvent.tick 300000, TimerEvent.pause 300001,
       TimerEvent.goToSlide 300002 0, TimerEvent.resume 300003,
       TimerEvent.tick 600004]).finishCount = 2 := by
  norm_num [runEvents, List.foldl, stepEvent, tickStep, pauseStep, resumeStep,
    goToSlideStep, goToSlideCore, getEffectiveElapsed, computeState, initMachine,
    initTimerState, TOTAL_DURATION_MS, SLIDE_DURATION_MS, TOTAL_SLIDES]

theorem tickStep_eff (m : TimerMachine) (now u : ℚ) :
    getEffectiveElapsed (tickStep m now).refs u = getEffectiveElapsed m.refs u := by
  simp only [tickStep]
  split <;> rfl

/-- After the ref updates of `goToSlide`, the effective elapsed time at the
call instant is exactly the clamped target slide's start time. -/
theorem goToSlideCore_eff (m : TimerMachine) (t : ℚ) (i : ℤ) :
    getEffectiveElapsed (goToSlideCore m t i).refs t =
      ((max 0 (min i 19) : ℤ) : ℚ) * 15000 := by
  unfold goToSlideCore SLIDE_DURATION_MS TOTAL_SLIDES
  cases hm : m.refs.pausedAt <;>
    simp only [getEffectiveElapsed, hm, Option.getD_none, Option.getD_some] <;>
    norm_num <;> ring

theorem goToSlide_eff (m : TimerMachine) (t : ℚ) (i : ℤ) :
    getEffectiveElapsed (goToSlideStep m t i).refs t =
      ((max 0 (min i 19) : ℤ) : ℚ) * 15000 := by
  simp only [goToSlideStep]
  split
  · rw [tickStep_eff]
    exact goToSlideCore_eff m t i
  · exact goToSlideCore_eff m t i

/-- Ticking at the exact start time of slide `c ∈ [0,19]` publishes
`(currentSlide = c, slideElapsed = 0)`. -/
theorem computeState_at_slide_start (c : ℤ) (hc0 : 0 ≤ c) (hc19 : c ≤ 19) (b : Bool) :
    (computeState ((c : ℚ) * 15000) b).currentSlide = c ∧
    (computeState ((c : ℚ) * 15000) b).slideElapsed = 0 := by
  have hcq0 : (0 : ℚ) ≤ (c : ℚ) := by exact_mod_cast hc0
  have hcq19 : (c : ℚ) ≤ 19 := by exact_mod_cast hc19
  have hge : (0 : ℚ) ≤ (c : ℚ) * 15000 := by nlinarith
  have hle : (c : ℚ) * 15000 ≤ 300000 := by nlinarith
  have hclamp : max 0 (min ((c : ℚ) * 15000) TOTAL_DURATION_MS) = (c : ℚ) * 15000 := by
    unfold TOTAL_DURATION_MS
    rw [min_eq_left hle, max_eq_right hge]
  have hdiv : ((c : ℚ) * 15000) / 15000 = (c : ℚ) := by
    field_simp
  have hmin : min ⌊((c : ℚ) * 15000) / SLIDE_DURATION_MS⌋ (TOTAL_SLIDES - 1) = c := by
    unfold SLIDE_DURATION_MS TOTAL_SLIDES
    norm_num [hdiv, Int.floor_intCast, min_eq_left hc19]
  constructor
  · simp only [computeState, hclamp, hmin]
  · simp only [computeState, hclamp, hmin]
    unfold SLIDE_DURATION_MS
    ring

/-- C4: `goToSlide(i)` clamps `i` to `[0,19]` and shifts the manual offset
so the next tick publishes `(currentSlide = clamp(i), slideElapsed = 0)`;
when the timer is paused, the immediate recomputation forced by the call
already publishes that state. -/
theorem goToSlide_lands_on_clamped_slide (m : TimerMachine) (t : ℚ) (i : ℤ) :
    (tickStep (goToSlideStep m t i) t).published.currentSlide = max 0 (min i 19) ∧
    (tickStep (goToSlideStep m t i) t).published.slideElapsed = 0 ∧
    (m.refs.pausedAt.isSome = true →
      (goToSlideStep m t i).published.currentSlide = max 0 (min i 19) ∧
      (goToSlideStep m t i).published.slideElapsed = 0) := by
  have hc0 : (0 : ℤ) ≤ max 0 (min i 19) := le_max_left 0 _
  have hc19 : max 0 (min i 19) ≤ 19 := max_le (by norm_num) (min_le_right i 19)
  refine ⟨?_, ?_, ?_⟩
  · rw [tickStep_published, goToSlide_eff]
    exact (computeState_at_slide_start _ hc0 hc19 _).1
  · rw [tickStep_published, goToSlide_eff]
    exact (computeState_at_slide_start _ hc0 hc19 _).2
  · intro hp
    have hcond : (goToSlideCore m t i).refs.pausedAt.isSome = true := hp
    have hrw : goToSlideStep m t i = tickStep (goToSlideCore m t i) t := by
      simp only [goToSlideStep, hcond, if_true]
    rw [hrw, tickStep_published, goToSlideCore_eff]
    exact ⟨(computeState_at_slide_start _ hc0 hc19 _).1,
      (computeState_at_slide_start _ hc0 hc19 _).2⟩

/-- Witness for C4: from a paused machine, `goToSlide(-3)` lands on slide 0
and `goToSlide(99)` lands on slide 19, with `slideElapsed = 0`. -/
theorem goToSlide_lands_on_clamped_slide_w :
    (tickStep (goToSlideStep (pauseStep (initMachine 0) 50) 60 (-3)) 60).published.currentSlide
        = max 0 (min (-3) 19) ∧
    (goToSlideStep (pauseStep (initMachine 0) 50) 60 (-3)).published.slideElapsed = 0 ∧
    (tickStep (goToSlideStep (pauseStep (initMachine 0) 50) 60 99) 60).published.currentSlide
        = max 0 (min 99 19) ∧
    (goToSlideStep (pauseStep (initMachine 0) 50) 60 99).published.currentSlide
        = max 0 (min 99 19) :=
  ⟨(goToSlide_lands_on_clamped_slide (pauseStep (initMachine 0) 50) 60 (-3)).1,
   ((goToSlide_lands_on_clamped_slide (pauseStep (initMachine 0) 50) 60 (-3)).2.2 rfl).2,
   (goToSlide_lands_on_clamped_slide (pauseStep (initMachine 0) 50) 60 99).1,
   ((goToSlide_lands_on_clamped_slide (pauseStep (initMachine 0) 50) 60 99).2.2 rfl).1⟩

theorem computeState_currentSlide (e : ℚ) (b : Bool) :
    (computeState e b).currentSlide = min ⌊(max 0 (min e 300000)) / 15000⌋ 19 := by
  norm_num [computeState, TOTAL_DURATION_MS, SLIDE_DURATION_MS, TOTAL_SLIDES]

theorem computeState_slideElapsed (e : ℚ) (b : Bool) :
    (computeState e b).slideElapsed =
      max 0 (min e 300000) - (min ⌊(max 0 (min e 300000)) / 15000⌋ 19 : ℤ) * 15000 := by
  norm_num [computeState, TOTAL_DURATION_MS, SLIDE_DURATION_MS, TOTAL_SLIDES]

theorem computeState_totalElapsed (e : ℚ) (b : Bool) :
    (computeState e b).totalElapsed = max 0 (min e 300000) := by
  norm_num [computeState, TOTAL_DURATION_MS]

theorem computeState_isFinished (e : ℚ) (b : Bool) :
    (computeState e b).isFinished = decide (300000 ≤ max 0 (min e 300000)) := by
  norm_num [computeState, TOTAL_DURATION_MS]

/-- The range invariants holding of every published `TimerState`. -/
def StateRanges (st : TimerState) : Prop :=
  (0 ≤ st.currentSlide ∧ st.currentSlide ≤ 19 ∧
   0 ≤ st.slideElapsed ∧ st.slideElapsed ≤ 15000 ∧
   0 ≤ st.totalElapsed ∧ st.totalElapsed ≤ 300000) ∧
  (st.isFinished = false → st.slideElapsed < 15000)

theorem computeState_ranges (e : ℚ) (b : Bool) : StateRanges (computeState e b) := by
  unfold StateRanges
  rw [computeState_currentSlide, computeState_slideElapsed, computeState_totalElapsed,
    computeState_isFinished]
  have hq : (0 : ℚ) < 15000 := by norm_num
  have hc0 : 0 ≤ max 0 (min e 300000) := le_max_left _ _
  have hc300 : max 0 (min e 300000) ≤ 300000 := max_le (by norm_num) (min_le_right _ _)
  generalize max 0 (min e 300000) = c at hc0 hc300 ⊢
  have hfl0 : 0 ≤ ⌊c / 15000⌋ := Int.floor_nonneg.mpr (div_nonneg hc0 (le_of_lt hq))
  have hnle : ((min ⌊c / 15000⌋ 19 : ℤ) : ℚ) ≤ c / 15000 := by
    have h1 : min ⌊c / 15000⌋ 19 ≤ ⌊c / 15000⌋ := min_le_left _ _
    calc ((min ⌊c / 15000⌋ 19 : ℤ) : ℚ) ≤ (⌊c / 15000⌋ : ℚ) := by exact_mod_cast h1
      _ ≤ c / 15000 := Int.floor_le _
  have hge : 0 ≤ c - (min ⌊c / 15000⌋ 19 : ℤ) * 15000 := by
    have h2 := (le_div_iff₀ hq).mp hnle
    linarith
  have hstrict : c < 300000 → c - (min ⌊c / 15000⌋ 19 : ℤ) * 15000 < 15000 := by
    intro hlt
    have hdiv20 : c / 15000 < 20 := by
      rw [div_lt_iff₀ hq]
      linarith
    have hfl19 : ⌊c / 15000⌋ ≤ 19 := by
      have h3 : ⌊c / 15000⌋ < 20 := Int.floor_lt.mpr (by exact_mod_cast hdiv20)
      omega
    rw [min_eq_left hfl19]
    have h4 := Int.lt_floor_add_one (c / 15000)
    rw [div_lt_iff₀ hq] at h4
    linarith
  refine ⟨⟨le_min hfl0 (by norm_num), min_le_right _ _, hge, ?_, hc0, hc300⟩, ?_⟩
  · rcases lt_or_ge c 300000 with hlt | hge300
    · exact le_of_lt (hstrict hlt)
    · have hceq : c = 300000 := le_antisymm hc300 hge300
      subst hceq
      norm_num
  · intro hf
    rw [decide_eq_false_iff_not, not_le] at hf
    exact hstrict hf

theorem stepEvent_published_ranges (m : TimerMachine) (e : TimerEvent)
    (h : StateRanges m.published) : StateRanges (stepEvent m e).published := by
  cases e with
  | tick now =>
    simp only [stepEvent]
    rw [tickStep_published]
    exact computeState_ranges _ _
  | pause now =>
    simp only [stepEvent]
    cases hm : m.refs.pausedAt with
    | some p => simpa only [pauseStep, hm] using h
    | none =>
      simp only [pauseStep, hm]
      unfold StateRanges at h ⊢
      simpa using h
  | resume now =>
    simp only [stepEvent]
    cases hm : m.refs.pausedAt with
    | none => simpa only [resumeStep, hm] using h
    | some p =>
      simp only [resumeStep, hm]
      unfold StateRanges at h ⊢
      simpa using h
  | goToSlide now i =>
    simp only [stepEvent, goToSlideStep]
    split
    · rw [tickStep_published]
      exact computeState_ranges _ _
    · exact h

theorem ranges_run (es : List TimerEvent) (m : TimerMachine)
    (h : StateRanges m.published) : StateRanges (runEvents m es).published := by
  induction es generalizing m with
  | nil => exact h
  | cons e rest ih => exact ih (stepEvent m e) (stepEvent_published_ranges m e h)

/-- C5 (amended): every published `TimerState` satisfies
`currentSlide ∈ [0,19]`, `slideElapsed ∈ [0,15000]` — strictly below 15000
whenever `isFinished` is false, the value 15000 being published exactly at
the finish boundary — and `totalElapsed ∈ [0,300000]`. -/
theorem timer_published_ranges (events : List TimerEvent) (s : ℚ) :
    (0 ≤ (runEvents (initMachine s) events).published.currentSlide ∧
     (runEvents (initMachine s) events).published.currentSlide ≤ 19 ∧
     0 ≤ (runEvents (initMachine s) events).published.slideElapsed ∧
     (runEvents (initMachine s) events).published.slideElapsed ≤ 15000 ∧
     0 ≤ (runEvents (initMachine s) events).published.totalElapsed ∧
     (runEvents (initMachine s) events).published.totalElapsed ≤ 300000) ∧
    ((runEvents (initMachine s) events).published.isFinished = false →
     (runEvents (initMachine s) events).published.slideElapsed < 15000) :=
  ranges_run events (initMachine s)
    (by unfold StateRanges initMachine initTimerState; norm_num)

/-- Witness for C5 (amended) on the empty event sequence. -/
theorem timer_published_ranges_w :
    (0 ≤ (runEvents (initMachine 0) []).published.currentSlide ∧
     (runEvents (initMachine 0) []).published.currentSlide ≤ 19 ∧
     0 ≤ (runEvents (initMachine 0) []).published.slideElapsed ∧
     (runEvents (initMachine 0) []).published.slideElapsed ≤ 15000 ∧
     0 ≤ (runEvents (initMachine 0) []).published.totalElapsed ∧
     (runEvents (initMachine 0) []).published.totalElapsed ≤ 300000) ∧
    (runEvents (initMachine 0) []).published.slideElapsed < 15000 :=
  ⟨(timer_published_ranges [] 0).1, (timer_published_ranges [] 0).2 rfl⟩

/-- C5 counterexample: the tick at the finish boundary publishes
`slideElapsed = 15000`, outside the claimed half-open range `[0,15000)`. -/
theorem published_slideElapsed_hits_15000 :
    (runEvents (initMachine 0) [TimerEvent.tick 300000]).published.slideElapsed = 15000 ∧
    ¬ (runEvents (initMachine 0) [TimerEvent.tick 300000]).published.slideElapsed < 15000 := by
  norm_num [runEvents, List.foldl, stepEvent, tickStep, getEffectiveElapsed,
    computeState, initMachine, initTimerState, TOTAL_DURATION_MS,
    SLIDE_DURATION_MS, TOTAL_SLIDES]

/-!
Capture engine: `useMediaRecorder` (src/src/hooks/useMediaRecorder.ts).
Browser capabilities (`MediaRecorder`, `isTypeSupported`, `captureStream`,
`getContext('2d')`, `getUserMedia`) are modelled as an explicit
environment; the hook's refs and React state are a `RecorderModel`
record; an uncaught exception would surface as `Except.error`.
-/

/-- `SlideImage` (src/src/types/index.ts). -/
structure SlideImage where
  pageNumber : ℕ
  objectUrl : String
  width : ℚ
  height : ℚ
deriving DecidableEq

/-- `OverlayInfo`: overlay data burned into the recorded video. -/
structure OverlayInfo where
  eventTitle : String
  storyName : String
  speakerName : String
  currentSlide : ℤ
  totalSlides : ℤ
  slideSecondsLeft : ℚ
deriving DecidableEq

/-- The per-segment fill width drawn by the segment loop of
`drawOverlayOnCanvas`: a full-width fill for `i < currentSlide`, a
`max(0, min(progress, 1))` proportional fill with
`progress = 1 - slideSecondsLeft / 15` for `i == currentSlide`, and no
fill rectangle for later segments. -/
def segmentFillWidth (segWidth : ℚ) (overlay : OverlayInfo) (i : ℤ) : ℚ :=
  if i < overlay.currentSlide then segWidth
  else if i = overlay.currentSlide then
    let progress := 1 - overlay.slideSecondsLeft / 15
    segWidth * max 0 (min progress 1)
  else 0

/-- The capability surface of the runtime used by `useMediaRecorder`. -/
structure MediaEnv where
  hasMediaRecorder : Bool
  isTypeSupported : String → Bool
  captureStreamSupported : Bool
  ctx2dAvailable : Bool
  micGranted : Bool

/-- The candidate container/codec list of `pickMimeType`, in preference
order. -/
def mimeCandidates : List String :=
  ["video/mp4;codecs=avc1,mp4a.40.2",
   "video/mp4",
   "video/webm;codecs=vp8,opus",
   "video/webm;codecs=vp8",
   "video/webm"]

/-- `pickMimeType`: the first supported candidate, or `""` if none is. -/
def pickMimeType (supported : String → Bool) : String :=
  match mimeCandidates.find? supported with
  | some m => m
  | none => ""

/-- The state of a `MediaRecorder` instance. -/
inductive RecState where
  | inactive
  | recording
  | paused
deriving DecidableEq

/-- The refs and React state of `useMediaRecorder`: `isRecording`,
`micDenied`, the offscreen canvas (dimensions), the canvas capture
stream, the audio stream, the recorder and its state, the collected
chunk sizes, the chosen mime type, the session start time, and the
cached last-drawn image (its page number). -/
structure RecorderModel where
  isRecording : Bool
  micDenied : Bool
  canvasDims : Option (ℚ × ℚ)
  hasCanvasStream : Bool
  hasAudioStream : Bool
  recorder : Option RecState
  chunks : List ℕ
  mime : String
  startTime : ℚ
  lastImage : Option ℕ
deriving DecidableEq

/-- The hook's state before any recording. -/
def initRecorder : RecorderModel :=
  { isRecording := false, micDenied := false, canvasDims := none
    hasCanvasStream := false, hasAudioStream := false, recorder := none
    chunks := [], mime := "", startTime := 0, lastImage := none }

/-- The recording canvas size computed in `startRecording`: cap at
1280×720 preserving the first slide's aspect ratio, with `Math.round`. -/
def computeCanvasDims (w h : ℚ) : ℚ × ℚ :=
  let aspect := w / h
  let p1 := if 1280 < w then ((1280 : ℚ), ((round ((1280 : ℚ) / aspect) : ℤ) : ℚ))
            else (w, h)
  if 720 < p1.2 then (((round ((720 : ℚ) * aspect) : ℤ) : ℚ), (720 : ℚ)) else p1

/-- `navigator.mediaDevices.getUserMedia({ audio: true })` as a fallible
call decided by the environment. -/
def getUserMediaAudio (env : MediaEnv) : Except Unit Unit :=
  if env.micGranted then Except.ok () else Except.error ()

/-- `startRecording(slides, preAcquiredAudio?)`. Each early `return` of
the source is an `Except.ok` leaving the state as it is at that point;
the only fallible call, `getUserMedia`, sits inside the source's
`try/catch`, which sets `micDenied` instead of propagating. -/
def startRecording (env : MediaEnv) (slides : List SlideImage)
    (preAcquiredAudio : Option Unit) (now : ℚ) (st : RecorderModel) :
    Except String RecorderModel :=
  if env.hasMediaRecorder = false then Except.ok st
  else
    let mime := pickMimeType env.isTypeSupported
    if mime = "" then Except.ok st
    else
      let st1 := { st with mime := mime }
      if env.captureStreamSupported = false then Except.ok st1
      else
        match slides.head? with
        | none => Except.ok st1
        | some firstSlide =>
          if env.ctx2dAvailable = false then Except.ok st1
          else
            let dims := computeCanvasDims firstSlide.width firstSlide.height
            let st2 := { st1 with canvasDims := some dims, hasCanvasStream := true }
            let audio :=
              match preAcquiredAudio with
              | some _ => (true, false)
              | none =>
                match getUserMediaAudio env with
                | Except.ok _ => (true, false)
                | Except.error _ => (false, true)
            let st3 := { st2 with hasAudioStream := audio.1, micDenied := audio.2 }
            let st4 := { st3 with chunks := [], recorder := some RecState.recording
                                  startTime := now, isRecording := true }
            Except.ok { st4 with lastImage := some firstSlide.pageNumber }

/-- An encoded media result: total byte size, container mime type, and
the duration written by a successful metadata-correction pass. -/
structure BlobModel where
  size : ℕ
  mime : String
  fixedDuration : Option ℚ
deriving DecidableEq

/-- `cleanup()`: stop and drop the streams, canvas, recorder and cached
image, and clear `isRecording`. -/
def cleanupModel (st : RecorderModel) : RecorderModel :=
  { st with hasAudioStream := false, hasCanvasStream := false
            canvasDims := none, recorder := none, lastImage := none
            isRecording := false }

/-- `stopRecording()`: when no recorder exists or it is inactive, clean up
and return none; otherwise finalize the chunk list into a blob, attempt
the WebM duration fix (`fixWorks` says whether `fixWebmDuration`
succeeds; on failure the unfixed blob is kept), clean up, and return the
blob when it is nonempty. -/
def stopRecording (fixWorks : Bool) (now : ℚ) (st : RecorderModel) :
    Option BlobModel × RecorderModel :=
  match st.recorder with
  | none => (none, cleanupModel st)
  | some RecState.inactive => (none, cleanupModel st)
  | some _ =>
    let blob : BlobModel := { size := st.chunks.sum, mime := st.mime
                              fixedDuration := none }
    let st1 := { st with chunks := [] }
    let blob1 :=
      if st.mime.startsWith "video/webm" = true ∧ 0 < blob.size ∧ 0 < st.startTime
      then (if fixWorks then { blob with fixedDuration := some (now - st.startTime) }
            else blob)
      else blob
    ((if 0 < blob1.size then some blob1 else none), cleanupModel st1)

/-- C6: when the runtime supports none of the candidate container/codec
combinations, `startRecording` is a no-op: it returns normally (no error)
with the hook state — recorder, canvas, streams, `isRecording` — exactly
as it was. -/
theorem startRecording_no_capability_no_op (env : MediaEnv)
    (slides : List SlideImage) (pre : Option Unit) (now : ℚ) (st : RecorderModel)
    (h : ∀ c ∈ mimeCandidates, env.isTypeSupported c = false) :
    startRecording env slides pre now st = Except.ok st := by
  have hpick : pickMimeType env.isTypeSupported = "" := by
    unfold pickMimeType
    rw [List.find?_eq_none.mpr (fun c hc => by simp [h c hc])]
  simp [startRecording, hpick]

/-- A runtime whose recorder supports no candidate mime type. -/
def envNoCapability : MediaEnv :=
  { hasMediaRecorder := true, isTypeSupported := fun _ => false
    captureStreamSupported := true, ctx2dAvailable := true, micGranted := true }

/-- Witness for C6 on a concrete capability-free runtime. -/
theorem startRecording_no_capability_no_op_w :
    startRecording envNoCapability [] none 0 initRecorder = Except.ok initRecorder :=
  startRecording_no_capability_no_op envNoCapability [] none 0 initRecorder
    (fun _ _ => rfl)

/-- `startRecording` never surfaces an exception: every path returns
`Except.ok`. -/
theorem startRecording_no_throw (env : MediaEnv) (slides : List SlideImage)
    (pre : Option Unit) (now : ℚ) (st : RecorderModel) :
    ∃ r, startRecording env slides pre now st = Except.ok r := by
  simp only [startRecording]
  repeat' split
  all_goals exact ⟨_, rfl⟩

/-- C7: with no pre-acquired audio and the microphone denied,
`startRecording` still starts a video-only capture session —
`isRecording` becomes true, the canvas stream exists, the recorder is
recording, no audio stream is attached — and signals the denial via the
`micDenied` flag; moreover no call to `startRecording` ever surfaces an
exception. -/
theorem mic_denied_video_only (env : MediaEnv) (first : SlideImage)
    (rest : List SlideImage) (now : ℚ) (st : RecorderModel)
    (h1 : env.hasMediaRecorder = true)
    (h2 : pickMimeType env.isTypeSupported ≠ "")
    (h3 : env.captureStreamSupported = true)
    (h4 : env.ctx2dAvailable = true)
    (h5 : env.micGranted = false)
    (env2 : MediaEnv) (slides2 : List SlideImage) (pre2 : Option Unit)
    (now2 : ℚ) (st2 : RecorderModel) :
    (∃ r, startRecording env (first :: rest) none now st = Except.ok r ∧
      r.isRecording = true ∧ r.micDenied = true ∧ r.hasAudioStream = false ∧
      r.hasCanvasStream = true ∧ r.recorder = some RecState.recording) ∧
    (∃ r2, startRecording env2 slides2 pre2 now2 st2 = Except.ok r2) := by
  constructor
  · simp only [startRecording, h1, h3, h4, h5, getUserMediaAudio,
      List.head?_cons, if_neg h2]
    norm_num
  · exact startRecording_no_throw env2 slides2 pre2 now2 st2

/-- A runtime that records but denies the microphone. -/
def envMicDenied : MediaEnv :=
  { hasMediaRecorder := true, isTypeSupported := fun _ => true
    captureStreamSupported := true, ctx2dAvailable := true, micGranted := false }

/-- A concrete 1280×720 first slide. -/
def slide0 : SlideImage :=
  { pageNumber := 1, objectUrl := "slide-1", width := 1280, height := 720 }

/-- Witness for C7 on a concrete mic-denied runtime. -/
theorem mic_denied_video_only_w :
    (∃ r, startRecording envMicDenied [slide0] none 100 initRecorder = Except.ok r ∧
      r.isRecording = true ∧ r.micDenied = true ∧ r.hasAudioStream = false ∧
      r.hasCanvasStream = true ∧ r.recorder = some RecState.recording) ∧
    (∃ r2, startRecording envMicDenied [] none 0 initRecorder = Except.ok r2) :=
  mic_denied_video_only envMicDenied slide0 [] 100 initRecorder rfl
    (by simp [pickMimeType, mimeCandidates, envMicDenied]) rfl rfl rfl
    envMicDenied [] none 0 initRecorder

/-- C8 (amended): `stopRecording` returns none when no recorder exists or
it is inactive; when a session is active and the collected chunks hold
data it returns the finalized blob — with the measured duration written
only when the container is WebM and the duration fix succeeds, the
uncorrected but valid blob otherwise — and it returns none when an
active session collected no data. -/
theorem stopRecording_result_spec (fixWorks : Bool) (now : ℚ)
    (st : RecorderModel) (rs : RecState) :
    ((st.recorder = none ∨ st.recorder = some RecState.inactive) →
      (stopRecording fixWorks now st).1 = none) ∧
    (st.recorder = some rs → rs ≠ RecState.inactive → 0 < st.chunks.sum →
      (stopRecording fixWorks now st).1 =
        some { size := st.chunks.sum, mime := st.mime
               fixedDuration :=
                 if st.mime.startsWith "video/webm" = true ∧ fixWorks = true ∧
                     0 < st.startTime
                 then some (now - st.startTime) else none }) ∧
    (st.recorder = some rs → rs ≠ RecState.inactive → st.chunks.sum = 0 →
      (stopRecording fixWorks now st).1 = none) := by
  refine ⟨?_, ?_, ?_⟩
  · rintro (h | h) <;> simp [stopRecording, h]
  · intro hrec hne hS
    cases rs with
    | inactive => exact absurd rfl hne
    | recording =>
      simp only [stopRecording, hrec]
      by_cases hW : st.mime.startsWith "video/webm" = true
      · by_cases hT : 0 < st.startTime
        · cases fixWorks <;> simp [hW, hT, hS]
        · simp [hW, hT, hS]
      · simp [hW, hS]
    | paused =>
      simp only [stopRecording, hrec]
      by_cases hW : st.mime.startsWith "video/webm" = true
      · by_cases hT : 0 < st.startTime
        · cases fixWorks <;> simp [hW, hT, hS]
        · simp [hW, hT, hS]
      · simp [hW, hS]
  · intro hrec hne hS0
    cases rs with
    | inactive => exact absurd rfl hne
    | recording => simp [stopRecording, hrec, hS0]
    | paused => simp [stopRecording, hrec, hS0]

/-- A mid-session recorder state: active WebM session with one 5-byte
chunk collected. -/
def recActive : RecorderModel :=
  { isRecording := true, micDenied := false, canvasDims := some (1280, 720)
    hasCanvasStream := true, hasAudioStream := true
    recorder := some RecState.recording, chunks := [5], mime := "video/webm"
    startTime := 100, lastImage := some 1 }

/-- Witness for C8 (amended): an idle hook yields none; an active session
whose duration fix fails still yields the uncorrected 5-byte blob. -/
theorem stopRecording_result_spec_w :
    (stopRecording false 200 initRecorder).1 = none ∧
    (stopRecording false 200 recActive).1 =
      some { size := 5, mime := "video/webm", fixedDuration := none } := by
  constructor
  · exact (stopRecording_result_spec false 200 initRecorder RecState.recording).1
      (Or.inl rfl)
  · have h := (stopRecording_result_spec false 200 recActive RecState.recording).2.1
      rfl (by decide) (by decide)
    simpa [recActive] using h

/-- A runtime with every capability granted. -/
def envAllGranted : MediaEnv :=
  { hasMediaRecorder := true, isTypeSupported := fun _ => true
    captureStreamSupported := true, ctx2dAvailable := true, micGranted := true }

/-- The hook state right after a fully successful `startRecording` on
`envAllGranted` with `slide0`, before any data chunk has arrived. -/
def startedRecorder : RecorderModel :=
  { isRecording := true, micDenied := false
    canvasDims := some (1280, 720), hasCanvasStream := true
    hasAudioStream := true, recorder := some RecState.recording
    chunks := [], mime := "video/mp4;codecs=avc1,mp4a.40.2"
    startTime := 100, lastImage := some 1 }

/-- C8 counterexample: a session reachable by `startRecording` that is
still active but has collected no data makes `stopRecording` return
none, although a session was active. -/
theorem stopRecording_active_empty_none :
    startRecording envAllGranted [slide0] none 100 initRecorder =
      Except.ok startedRecorder ∧
    startedRecorder.recorder = some RecState.recording ∧
    startedRecorder.isRecording = true ∧
    (stopRecording true 200 startedRecorder).1 = none := by
  refine ⟨?_, rfl, rfl, ?_⟩
  · have hne : ¬ "video/mp4;codecs=avc1,mp4a.40.2" = "" := by decide
    norm_num [startRecording, envAllGranted, pickMimeType, mimeCandidates,
      slide0, initRecorder, computeCanvasDims, getUserMediaAudio,
      startedRecorder, List.find?, hne]
  · norm_num [stopRecording, startedRecorder, cleanupModel]

/-- C9: in the segment loop of `drawOverlayOnCanvas`, a segment strictly
before `currentSlide` is filled to its full width, the segment at
`currentSlide` is filled to `clamp(1 - slideSecondsLeft / 15, 0, 1)` of
its width, and a segment after `currentSlide` gets no fill. -/
theorem overlay_segment_fill_rule (segWidth : ℚ) (ov : OverlayInfo) (i : ℤ)
    (_hlo : 0 ≤ i) (_hhi : i < ov.totalSlides) :
    (i < ov.currentSlide → segmentFillWidth segWidth ov i = segWidth) ∧
    (i = ov.currentSlide →
      segmentFillWidth segWidth ov i =
        segWidth * max 0 (min (1 - ov.slideSecondsLeft / 15) 1)) ∧
    (ov.currentSlide < i → segmentFillWidth segWidth ov i = 0) := by
  refine ⟨?_, ?_, ?_⟩
  · intro h
    simp [segmentFillWidth, h]
  · intro h
    simp [segmentFillWidth, h]
  · intro h
    have h1 : ¬ i < ov.currentSlide := by omega
    have h2 : ¬ i = ov.currentSlide := by omega
    simp [segmentFillWidth, h1, h2]

/-- A concrete overlay: slide 5 of 20, 10 seconds left. -/
def overlay0 : OverlayInfo :=
  { eventTitle := "Ignite", storyName := "2035", speakerName := "A. Speaker"
    currentSlide := 5, totalSlides := 20, slideSecondsLeft := 10 }

/-- Witness for C9 on `overlay0` at segments 3, 5 and 7. -/
theorem overlay_segment_fill_rule_w :
    segmentFillWidth 30 overlay0 3 = 30 ∧
    segmentFillWidth 30 overlay0 5 =
      30 * max 0 (min (1 - (overlay0.slideSecondsLeft) / 15) 1) ∧
    segmentFillWidth 30 overlay0 7 = 0 :=
  ⟨(overlay_segment_fill_rule 30 overlay0 3 (by decide) (by decide)).1 (by decide),
   (overlay_segment_fill_rule 30 overlay0 5 (by decide) (by decide)).2.1 (by decide),
   (overlay_segment_fill_rule 30 overlay0 7 (by decide) (by decide)).2.2 (by decide)⟩
